import Mathlib

/-
  Verification of the 2D sketch topology / geometry-editing core of the
  bobbo-app CAD modeler.

  Shallow embedding of:
    - src/lib/geometry/SketchMath.ts (vector kernel, intersections, trim/extend math)
    - src/lib/sketcher/Sketcher.ts   (topology store: nodes/entities/constraints,
                                      contour detection, trim/extend)
    - src/lib/sketcher/ConstraintSolver.ts (vertical/horizontal relaxation solver)

  Modelling conventions:
    * TS `number` (IEEE double) is modelled as `ℚ`.  `Math.sqrt` is modelled as an
      abstract function parameter `sqrt : ℚ → ℚ`; every theorem that involves it is
      proved for an arbitrary such function, and witnesses instantiate it concretely.
    * JS `Map` is modelled as an insertion-ordered association list: `set` of a new
      key appends, `delete` filters, iteration is list order (JS Maps iterate in
      insertion order).
    * String ids produced by `generateId` are modelled as naturals drawn from a
      `nextId` counter carried in the state (see `Sketcher.generateId`).
-/

-- The Batteries implementations of rational arithmetic are `@[irreducible]`,
-- which blocks `decide`-style evaluation of the embedding on concrete inputs;
-- make them semireducible again for this development.
unseal Rat.add Rat.sub Rat.mul Rat.inv Rat.ofScientific

namespace Bobbo

/-- 2D point, `Point2D` of src/lib/core/types.ts. -/
structure Point2D where
  x : ℚ
  y : ℚ
deriving DecidableEq, Repr

/-- `SketchNode` of src/lib/core/types.ts: `{ id, x, y, fixed? }`.
The optional `fixed` flag is never written by the sketcher core; entity
constructors create nodes without it, modelled as `false`. -/
structure SketchNode where
  id : Nat
  x : ℚ
  y : ℚ
  fixed : Bool
deriving DecidableEq, Repr

/-- The geometric payload of the `SketchEntity` tagged union of
src/lib/core/types.ts (the per-variant fields beside the common base). -/
inductive EntityGeom where
  | line (startNodeId endNodeId : Nat)
  | polyline (nodeIds : List Nat) (closed : Bool)
  | rectangle (cornerNodeId : Nat) (width height : ℚ)
  | circle (centerNodeId : Nat) (radius : ℚ)
  | arc (centerNodeId : Nat) (radius startAngle endAngle : ℚ)
  | spline (controlPointNodeIds : List Nat) (degree : Nat)
  | point (nodeId : Nat)
deriving DecidableEq, Repr

/-- `SketchEntityBase` common fields plus the tagged payload. -/
structure SketchEntity where
  id : Nat
  geom : EntityGeom
  construction : Bool
  connections : List Nat
deriving DecidableEq, Repr

/-- Constraint discriminant.  The solver of ConstraintSolver.ts only acts on
`vertical` and `horizontal`; all other declared constraint types fall through
its `switch` unchanged and are modelled by the single catch-all `otherKind`. -/
inductive ConstraintType where
  | vertical
  | horizontal
  | otherKind
deriving DecidableEq, Repr

/-- `ConstraintBase` of src/lib/core/types.ts (id, type, entityIds, enabled). -/
structure Constraint where
  id : Nat
  ctype : ConstraintType
  entityIds : List Nat
  enabled : Bool
deriving DecidableEq, Repr

/-- The `Sketcher` class state: the three JS Maps (as insertion-ordered lists)
plus the id counter modelling `generateId`. -/
structure Sketcher where
  nodes : List SketchNode
  entities : List SketchEntity
  constraints : List Constraint
  nextId : Nat
deriving DecidableEq, Repr

/-- `const SNAP_DISTANCE = 0.5` (Sketcher.ts). -/
def SNAP_DISTANCE : ℚ := 1/2

/-- `const EPSILON = 1e-4` (SketchMath.ts). -/
def EPSILON : ℚ := 1/10000

-- ===========================================================================
-- Geometry kernel (src/lib/geometry/SketchMath.ts)
-- ===========================================================================

def vecAdd (a b : Point2D) : Point2D := ⟨a.x + b.x, a.y + b.y⟩

def vecSub (a b : Point2D) : Point2D := ⟨a.x - b.x, a.y - b.y⟩

def vecMul (a : Point2D) (s : ℚ) : Point2D := ⟨a.x * s, a.y * s⟩

def vecDot (a b : Point2D) : ℚ := a.x * b.x + a.y * b.y

/-- `vecLen`: `Math.sqrt(x*x + y*y)` with the abstract square root. -/
def vecLen (sqrt : ℚ → ℚ) (a : Point2D) : ℚ := sqrt (a.x * a.x + a.y * a.y)

/-- `vecNorm`: scales by `1/len` when `len > 0`, else returns the origin. -/
def vecNorm (sqrt : ℚ → ℚ) (a : Point2D) : Point2D :=
  let len := vecLen sqrt a
  if 0 < len then vecMul a (1 / len) else ⟨0, 0⟩

def vecDist (sqrt : ℚ → ℚ) (a b : Point2D) : ℚ := vecLen sqrt (vecSub a b)

/-- `getNormal2D` of SketchMath.ts. -/
def getNormal2D (sqrt : ℚ → ℚ) (p1 p2 : Point2D) : Point2D :=
  let dx := p2.x - p1.x
  let dy := p2.y - p1.y
  let len := sqrt (dx * dx + dy * dy)
  if len < EPSILON then ⟨0, 1⟩ else ⟨-dy / len, dx / len⟩

/-- Return record of `projectPointOnLine`. -/
structure Projection where
  point : Point2D
  t : ℚ
  tClamped : ℚ
  dist : ℚ
deriving DecidableEq, Repr

/-- `projectPointOnLine(p, a, b)` of SketchMath.ts. -/
def projectPointOnLine (sqrt : ℚ → ℚ) (p a b : Point2D) : Projection :=
  let ab := vecSub b a
  let ap := vecSub p a
  let lenSq := ab.x * ab.x + ab.y * ab.y
  let t := if EPSILON < lenSq then vecDot ap ab / lenSq else 0
  let tClamped := max 0 (min 1 t)
  let closest : Point2D := ⟨a.x + ab.x * tClamped, a.y + ab.y * tClamped⟩
  ⟨closest, t, tClamped, vecDist sqrt p closest⟩

/-- Return record of `intersectLineLine`. -/
structure LineInter where
  x : ℚ
  y : ℚ
  t : ℚ
  u : ℚ
deriving DecidableEq, Repr

/-- `intersectLineLine(p1,p2,p3,p4)` of SketchMath.ts (null on near-parallel). -/
def intersectLineLine (p1 p2 p3 p4 : Point2D) : Option LineInter :=
  let denom := (p4.y - p3.y) * (p2.x - p1.x) - (p4.x - p3.x) * (p2.y - p1.y)
  if |denom| < EPSILON then none
  else
    let ua := ((p4.x - p3.x) * (p1.y - p3.y) - (p4.y - p3.y) * (p1.x - p3.x)) / denom
    let ub := ((p2.x - p1.x) * (p1.y - p3.y) - (p2.y - p1.y) * (p1.x - p3.x)) / denom
    some ⟨p1.x + ua * (p2.x - p1.x), p1.y + ua * (p2.y - p1.y), ua, ub⟩

/-- `intersectLineCircle(p1,p2,center,radius)` of SketchMath.ts: both raw
quadratic roots, unclamped.  (In the source a degenerate zero-length segment
gives `a = 0` and IEEE division by zero; over `ℚ` division by zero yields `0`;
no claim exercises that case.) -/
def intersectLineCircle (sqrt : ℚ → ℚ) (p1 p2 center : Point2D) (radius : ℚ) : List ℚ :=
  let d := vecSub p2 p1
  let f := vecSub p1 center
  let a := vecDot d d
  let b := 2 * vecDot f d
  let c := vecDot f f - radius * radius
  let disc := b * b - 4 * a * c
  if disc < 0 then []
  else
    let root := sqrt disc
    [(-b - root) / (2 * a), (-b + root) / (2 * a)]

/-- A plain segment `{p1, p2}` as passed around by the editing operations. -/
structure Seg where
  p1 : Point2D
  p2 : Point2D
deriving DecidableEq, Repr

/-- A circle `{center, radius}` as collected by `getAllCircles`. -/
structure CircleShape where
  center : Point2D
  radius : ℚ
deriving DecidableEq, Repr

/-- Segment/segment cut parameters collected by the first loop of
`calculateTrim`: `t ∈ (ε, 1-ε)` on the target, `u ∈ [-ε, 1+ε]` on the other. -/
def segCuts (p1 p2 : Point2D) (otherSegments : List Seg) : List ℚ :=
  otherSegments.foldl (fun acc seg =>
    match intersectLineLine p1 p2 seg.p1 seg.p2 with
    | some res =>
      if EPSILON < res.t ∧ res.t < 1 - EPSILON then
        if -EPSILON ≤ res.u ∧ res.u ≤ 1 + EPSILON then acc ++ [res.t] else acc
      else acc
    | none => acc) []

/-- Segment/circle cut parameters collected by the second loop of
`calculateTrim`: raw roots filtered to `(ε, 1-ε)`. -/
def circleCuts (sqrt : ℚ → ℚ) (p1 p2 : Point2D) (otherCircles : List CircleShape) : List ℚ :=
  otherCircles.foldl (fun acc circle =>
    (intersectLineCircle sqrt p1 p2 circle.center circle.radius).foldl
      (fun acc2 t => if EPSILON < t ∧ t < 1 - EPSILON then acc2 ++ [t] else acc2) acc) []

/-- All interior cut parameters pushed onto `cutsT` after its `[0, 1]` seed. -/
def trimCuts (sqrt : ℚ → ℚ) (p1 p2 : Point2D) (otherSegments : List Seg)
    (otherCircles : List CircleShape) : List ℚ :=
  segCuts p1 p2 otherSegments ++ circleCuts sqrt p1 p2 otherCircles

/-- `cutsT.sort((a,b) => a-b)`: ascending numeric sort. -/
def sortQ (l : List ℚ) : List ℚ := l.insertionSort (· ≤ ·)

/-- Tail of the dedup filter: element `u` is kept iff it exceeds the previous
array element (kept or not) by more than `EPSILON`, mirroring
`cutsT.filter((t,i) => i === 0 || t > cutsT[i-1] + EPSILON)` over the sorted
array. -/
def dedupAux : ℚ → List ℚ → List ℚ
  | _, [] => []
  | prev, u :: rest =>
    if prev + EPSILON < u then u :: dedupAux u rest else dedupAux u rest

/-- The dedup filter of `calculateTrim` (index 0 always kept). -/
def dedupCuts : List ℚ → List ℚ
  | [] => []
  | t :: rest => t :: dedupAux t rest

/-- Point at parameter `t` along the target segment. -/
def pointAt (p1 p2 : Point2D) (t : ℚ) : Point2D :=
  ⟨p1.x + t * (p2.x - p1.x), p1.y + t * (p2.y - p1.y)⟩

/-- Fragments between consecutive entries of `uniqueT`
(the `for i < uniqueT.length - 1` loop of `calculateTrim`). -/
def fragsOf (p1 p2 : Point2D) (uniqueT : List ℚ) : List Seg :=
  (uniqueT.zip uniqueT.tail).map (fun pr => ⟨pointAt p1 p2 pr.1, pointAt p1 p2 pr.2⟩)

/-- The per-fragment metric of the argmin scan: `proj.dist` of
`projectPointOnLine(clickPoint, frag.p1, frag.p2)` (clamped projection). -/
def fragDist (sqrt : ℚ → ℚ) (clickPoint : Point2D) (frag : Seg) : ℚ :=
  (projectPointOnLine sqrt clickPoint frag.p1 frag.p2).dist

/-- The argmin-by-projection-distance scan shared by `calculateTrim`
(`closestIdx` / `minDistance`) and the clicked-segment selection of the
polyline branch of `trimEntity`: first index strictly improving the minimum;
`none` models `closestIdx === -1` (only possible on an empty list, since any
distance beats the initial `Infinity`). -/
def closestFrag (sqrt : ℚ → ℚ) (clickPoint : Point2D) (frags : List Seg) : Option Nat :=
  (frags.foldl (fun (st : Option (Nat × ℚ) × Nat) frag =>
    let d := fragDist sqrt clickPoint frag
    match st.1 with
    | none => (some (st.2, d), st.2 + 1)
    | some (bi, bd) =>
      if d < bd then (some (st.2, d), st.2 + 1) else (some (bi, bd), st.2 + 1))
    (none, 0)).1.map Prod.fst

/-- `calculateTrim(targetSegment, clickPoint, otherSegments, otherCircles)`
of SketchMath.ts. -/
def calculateTrim (sqrt : ℚ → ℚ) (target : Seg) (clickPoint : Point2D)
    (otherSegments : List Seg) (otherCircles : List CircleShape) : Option (List Seg) :=
  let p1 := target.p1
  let p2 := target.p2
  let cutsT := [0, 1] ++ trimCuts sqrt p1 p2 otherSegments otherCircles
  let uniqueT := dedupCuts (sortQ cutsT)
  let fragments := fragsOf p1 p2 uniqueT
  match closestFrag sqrt clickPoint fragments with
  | some i => some (fragments.eraseIdx i)
  | none => if uniqueT.length = 2 then some [] else none

/-- The best-candidate scan of `calculateExtend`: nearest valid intersection
ahead of the moving endpoint, over other segments then circles. -/
def extendCandidate (sqrt : ℚ → ℚ) (endPt farPt : Point2D) (otherSegments : List Seg)
    (otherCircles : List CircleShape) : Option Point2D :=
  let st1 := otherSegments.foldl (fun (st : Option Point2D × Option ℚ) seg =>
    match intersectLineLine endPt farPt seg.p1 seg.p2 with
    | some res =>
      if EPSILON < res.t ∧ -EPSILON ≤ res.u ∧ res.u ≤ 1 + EPSILON then
        let pt : Point2D := ⟨res.x, res.y⟩
        let dist := vecDist sqrt endPt pt
        match st.2 with
        | none => (some pt, some dist)
        | some m => if dist < m then (some pt, some dist) else st
      else st
    | none => st) (none, none)
  let st2 := otherCircles.foldl (fun st circle =>
    (intersectLineCircle sqrt endPt farPt circle.center circle.radius).foldl
      (fun st2 t =>
        if EPSILON < t then
          let iPt : Point2D := ⟨endPt.x + t * (farPt.x - endPt.x), endPt.y + t * (farPt.y - endPt.y)⟩
          let dist := sqrt ((iPt.x - endPt.x) ^ 2 + (iPt.y - endPt.y) ^ 2)
          match st2.2 with
          | none => (some iPt, some dist)
          | some m => if dist < m then (some iPt, some dist) else st2
        else st2) st) st1
  st2.1

/-- `calculateExtend(targetSegment, clickPoint, otherSegments, otherCircles)`
of SketchMath.ts. -/
def calculateExtend (sqrt : ℚ → ℚ) (target : Seg) (clickPoint : Point2D)
    (otherSegments : List Seg) (otherCircles : List CircleShape) : Option Seg :=
  let p1 := target.p1
  let p2 := target.p2
  let d1 := vecDist sqrt clickPoint p1
  let d2 := vecDist sqrt clickPoint p2
  let startPt := if d2 < d1 then p1 else p2
  let endPt := if d2 < d1 then p2 else p1
  let dir := vecNorm sqrt (vecSub endPt startPt)
  let farPt := vecAdd endPt (vecMul dir 10000)
  match extendCandidate sqrt endPt farPt otherSegments otherCircles with
  | some best => some (if d2 < d1 then ⟨p1, best⟩ else ⟨best, p2⟩)
  | none => none

-- ===========================================================================
-- Topology store (src/lib/sketcher/Sketcher.ts)
-- ===========================================================================

/-- `this.nodes.get(id)` (first association with the id). -/
def findNodeIn (nodes : List SketchNode) (nid : Nat) : Option SketchNode :=
  nodes.find? (fun n => n.id == nid)

/-- `getPoint(nodeId)` over a node list. -/
def getPointIn (nodes : List SketchNode) (nid : Nat) : Option Point2D :=
  (findNodeIn nodes nid).map (fun n => ⟨n.x, n.y⟩)

namespace Sketcher

/-- The empty sketch (fresh `Sketcher` instance). -/
def empty : Sketcher := ⟨[], [], [], 0⟩

/-- `getNode` / `this.nodes.get`. -/
def findNode (s : Sketcher) (nid : Nat) : Option SketchNode :=
  findNodeIn s.nodes nid

/-- `getPoint(nodeId)`. -/
def getPoint (s : Sketcher) (nid : Nat) : Option Point2D :=
  getPointIn s.nodes nid

/-- `this.entities.get(id)`. -/
def findEntity (s : Sketcher) (eid : Nat) : Option SketchEntity :=
  s.entities.find? (fun e => e.id == eid)

/-- Modelled from the spec: `generateId` lives in `src/lib/stores/cadStore.ts`,
which is not among the provided sources.  The spec describes ids only as
generated unique identifiers keying a dense arena map ("implement nodes as an
arena (dense map keyed by generated id)"), so id generation is modelled as a
counter drawn from the state's `nextId` field. -/
def generateId (s : Sketcher) : Nat × Sketcher :=
  (s.nextId, { s with nextId := s.nextId + 1 })

/-- Whether an existing node snaps to `(x, y)`: the independent per-axis box
test `|Δx| < SNAP_DISTANCE && |Δy| < SNAP_DISTANCE` of `acquireNode`. -/
def boxMatch (n : SketchNode) (x y : ℚ) : Bool :=
  decide (|n.x - x| < SNAP_DISTANCE) && decide (|n.y - y| < SNAP_DISTANCE)

/-- `acquireNode(x, y)`: linear scan over nodes in insertion order; returns the
first box-match, otherwise allocates and appends a fresh node. -/
def acquireNode (s : Sketcher) (x y : ℚ) : Nat × Sketcher :=
  match s.nodes.find? (fun n => boxMatch n x y) with
  | some n => (n.id, s)
  | none =>
    let pr := generateId s
    (pr.1, { pr.2 with nodes := pr.2.nodes ++ [⟨pr.1, x, y, false⟩] })

/-- `points.map(p => this.acquireNode(p.x, p.y))`, threading the state. -/
def acquireNodes (s : Sketcher) : List Point2D → List Nat × Sketcher
  | [] => ([], s)
  | p :: rest =>
    let pr := acquireNode s p.x p.y
    let tailRes := acquireNodes pr.2 rest
    (pr.1 :: tailRes.1, tailRes.2)

/-- `addLine(start, end)` (state effect; the returned entity has id
`nextId` after both node acquisitions). -/
def addLine (s : Sketcher) (pa pb : Point2D) : Sketcher :=
  let r1 := acquireNode s pa.x pa.y
  let r2 := acquireNode r1.2 pb.x pb.y
  let r3 := generateId r2.2
  { r3.2 with entities := r3.2.entities ++ [⟨r3.1, .line r1.1 r2.1, false, []⟩] }

/-- `addPolyline(points, closed)`. -/
def addPolyline (s : Sketcher) (points : List Point2D) (closed : Bool) : Sketcher :=
  let r1 := acquireNodes s points
  let r2 := generateId r1.2
  { r2.2 with entities := r2.2.entities ++ [⟨r2.1, .polyline r1.1 closed, false, []⟩] }

/-- `addRectangle(corner, width, height)`. -/
def addRectangle (s : Sketcher) (corner : Point2D) (width height : ℚ) : Sketcher :=
  let r1 := acquireNode s corner.x corner.y
  let r2 := generateId r1.2
  { r2.2 with entities := r2.2.entities ++ [⟨r2.1, .rectangle r1.1 width height, false, []⟩] }

/-- `addCircle(center, radius)`. -/
def addCircle (s : Sketcher) (center : Point2D) (radius : ℚ) : Sketcher :=
  let r1 := acquireNode s center.x center.y
  let r2 := generateId r1.2
  { r2.2 with entities := r2.2.entities ++ [⟨r2.1, .circle r1.1 radius, false, []⟩] }

/-- `addPoint(pos)`. -/
def addPoint (s : Sketcher) (pos : Point2D) : Sketcher :=
  let r1 := acquireNode s pos.x pos.y
  let r2 := generateId r1.2
  { r2.2 with entities := r2.2.entities ++ [⟨r2.1, .point r1.1, false, []⟩] }

/-- The node ids one entity contributes to `usedNodeIds` in
`cleanupUnusedNodes`.  Faithful to the source: the if/else chain there covers
`line`, `polyline`, `rectangle`, `circle` and `point` and has NO branch for
`arc` or `spline`, so those two contribute nothing. -/
def collectedNodeIds (e : SketchEntity) : List Nat :=
  match e.geom with
  | .line a b => [a, b]
  | .polyline ids _ => ids
  | .rectangle c _ _ => [c]
  | .circle c _ => [c]
  | .arc _ _ _ _ => []
  | .spline _ _ => []
  | .point n => [n]

/-- The `usedNodeIds` set of `cleanupUnusedNodes` (as a list). -/
def usedNodeIds (entities : List SketchEntity) : List Nat :=
  entities.foldl (fun acc e => acc ++ collectedNodeIds e) []

/-- `cleanupUnusedNodes()`: delete every node whose id was not collected. -/
def cleanupUnusedNodes (s : Sketcher) : Sketcher :=
  { s with nodes := s.nodes.filter (fun n => (usedNodeIds s.entities).contains n.id) }

/-- `removeEntity(entityId)`: delete the entity, cascade-delete every
constraint whose `entityIds` contains it, then clean up orphan nodes;
silent no-op when the id is absent. -/
def removeEntity (s : Sketcher) (entityId : Nat) : Sketcher :=
  match findEntity s entityId with
  | none => s
  | some _ =>
    cleanupUnusedNodes
      { s with
        entities := s.entities.filter (fun e => !(e.id == entityId)),
        constraints := s.constraints.filter (fun c => !(c.entityIds.contains entityId)) }

/-- `loadFromNode(sketch)`: `clear()` then repopulate the three maps from the
record (insertion into an empty JS Map in record order = the record lists,
assuming the record's ids are distinct as produced by `exportToNode`).
`generateId` is global in the source, so the counter is unchanged. -/
def loadFromNode (s : Sketcher) (nodes : List SketchNode) (entities : List SketchEntity)
    (constraints : List Constraint) : Sketcher :=
  { s with nodes := nodes, entities := entities, constraints := constraints }

-- ===========================================================================
-- Constraint management and solver (ConstraintSolver.ts)
-- ===========================================================================

/-- Replace the `x` coordinate of the node with the given id (the solver's
in-place `n.x = avgX` on the shared node object). -/
def setNodeX (nodes : List SketchNode) (nid : Nat) (v : ℚ) : List SketchNode :=
  nodes.map (fun n => if n.id = nid then { n with x := v } else n)

/-- Replace the `y` coordinate of the node with the given id. -/
def setNodeY (nodes : List SketchNode) (nid : Nat) (v : ℚ) : List SketchNode :=
  nodes.map (fun n => if n.id = nid then { n with y := v } else n)

/-- `solveVertical(constraint)`: averages the two endpoint `x`s when the
difference exceeds `0.0001`; returns the updated nodes and the error added to
`totalError`.  All fall-through safety checks return `(nodes, 0)`. -/
def solveVertical (entities : List SketchEntity) (nodes : List SketchNode)
    (c : Constraint) : List SketchNode × ℚ :=
  match c.entityIds with
  | [] => (nodes, 0)
  | entityId :: _ =>
    match entities.find? (fun e => e.id == entityId) with
    | none => (nodes, 0)
    | some e =>
      match e.geom with
      | .line aId bId =>
        match findNodeIn nodes aId, findNodeIn nodes bId with
        | some n1, some n2 =>
          let diff := n1.x - n2.x
          if |diff| < 1/10000 then (nodes, 0)
          else
            let avgX := (n1.x + n2.x) / 2
            (setNodeX (setNodeX nodes aId avgX) bId avgX, |diff|)
        | _, _ => (nodes, 0)
      | _ => (nodes, 0)

/-- `solveHorizontal(constraint)`: identical on `y`. -/
def solveHorizontal (entities : List SketchEntity) (nodes : List SketchNode)
    (c : Constraint) : List SketchNode × ℚ :=
  match c.entityIds with
  | [] => (nodes, 0)
  | entityId :: _ =>
    match entities.find? (fun e => e.id == entityId) with
    | none => (nodes, 0)
    | some e =>
      match e.geom with
      | .line aId bId =>
        match findNodeIn nodes aId, findNodeIn nodes bId with
        | some n1, some n2 =>
          let diff := n1.y - n2.y
          if |diff| < 1/10000 then (nodes, 0)
          else
            let avgY := (n1.y + n2.y) / 2
            (setNodeY (setNodeY nodes aId avgY) bId avgY, |diff|)
        | _, _ => (nodes, 0)
      | _ => (nodes, 0)

/-- One pass of `solve()`: apply every enabled constraint once, accumulating
`totalError`; constraint types other than vertical/horizontal fall through the
`switch`. -/
def solvePass (entities : List SketchEntity) (constraints : List Constraint)
    (nodes : List SketchNode) : List SketchNode × ℚ :=
  constraints.foldl (fun st c =>
    if c.enabled then
      match c.ctype with
      | .vertical =>
        let r := solveVertical entities st.1 c
        (r.1, st.2 + r.2)
      | .horizontal =>
        let r := solveHorizontal entities st.1 c
        (r.1, st.2 + r.2)
      | .otherKind => st
    else st) (nodes, 0)

/-- The `for (i < maxIterations)` loop of `solve()` with early exit once the
pass error drops below `0.0001`. -/
def solveLoop (entities : List SketchEntity) (constraints : List Constraint) :
    Nat → List SketchNode → List SketchNode
  | 0, nodes => nodes
  | k + 1, nodes =>
    let r := solvePass entities constraints nodes
    if r.2 < 1/10000 then r.1 else solveLoop entities constraints k r.1

/-- `solveConstraints` / `ConstraintSolver.solve()` with `maxIterations = 10`
(the solver mutates the shared node map; its always-`success: true` result is
only used for a console warning in `solveAllConstraints`). -/
def solveAllConstraints (s : Sketcher) : Sketcher :=
  if s.constraints.isEmpty then s
  else { s with nodes := solveLoop s.entities s.constraints 10 s.nodes }

/-- `addVerticalConstraint(entityId)`: `Result<string>` modelled as
`Except String Nat`; on success the new constraint is stored and
`solveAllConstraints` runs immediately. -/
def addVerticalConstraint (s : Sketcher) (entityId : Nat) : Except String Nat × Sketcher :=
  match findEntity s entityId with
  | none => (.error "Target not a line", s)
  | some e =>
    match e.geom with
    | .line _ _ =>
      if s.constraints.any (fun c =>
        decide (c.ctype = ConstraintType.vertical) && c.entityIds.contains entityId) then
        (.error "Already vertical", s)
      else
        let r := generateId s
        let s2 := { r.2 with constraints :=
          r.2.constraints ++ [⟨r.1, .vertical, [entityId], true⟩] }
        (.ok r.1, solveAllConstraints s2)
    | _ => (.error "Target not a line", s)

/-- `addHorizontalConstraint(entityId)`. -/
def addHorizontalConstraint (s : Sketcher) (entityId : Nat) : Except String Nat × Sketcher :=
  match findEntity s entityId with
  | none => (.error "Target not a line", s)
  | some e =>
    match e.geom with
    | .line _ _ =>
      if s.constraints.any (fun c =>
        decide (c.ctype = ConstraintType.horizontal) && c.entityIds.contains entityId) then
        (.error "Already horizontal", s)
      else
        let r := generateId s
        let s2 := { r.2 with constraints :=
          r.2.constraints ++ [⟨r.1, .horizontal, [entityId], true⟩] }
        (.ok r.1, solveAllConstraints s2)
    | _ => (.error "Target not a line", s)

-- ===========================================================================
-- Contour detection (`getClosedContours`)
-- ===========================================================================

/-- The adjacency map `adj : Map<string, string[]>`, as an insertion-ordered
association list (JS Map key order = first-insertion order; neighbor arrays
keep push order). -/
abbrev Adj : Type := List (Nat × List Nat)

/-- Ensure a key is present (`if (!adj.has(id)) adj.set(id, [])`). -/
def adjEnsure (adj : Adj) (k : Nat) : Adj :=
  if (List.any adj (fun kv => kv.1 == k)) then adj else adj ++ [(k, [])]

/-- Push `v` onto `adj[k]` unless already present
(`if (!adj.get(k).includes(v)) adj.get(k).push(v)`). -/
def adjPush (adj : Adj) (k v : Nat) : Adj :=
  List.map (fun kv => if kv.1 = k then (k, if kv.2.contains v then kv.2 else kv.2 ++ [v]) else kv) adj

/-- `addEdge(id1, id2)` of `getClosedContours`. -/
def addEdge (adj : Adj) (id1 id2 : Nat) : Adj :=
  adjPush (adjPush (adjEnsure (adjEnsure adj id1) id2) id1 id2) id2 id1

/-- `adj.get(curr) || []`. -/
def adjGet (adj : Adj) (k : Nat) : List Nat :=
  ((List.find? (fun kv => kv.1 == k) adj).map Prod.snd).getD []

/-- The graph-building loop of `getClosedContours`: every `Line` edge, every
consecutive `Polyline` pair, plus the closing edge of a closed polyline.
Faithful to the source, there is NO filtering on the `construction` flag. -/
def buildAdjacency (entities : List SketchEntity) : Adj :=
  entities.foldl (fun adj e =>
    match e.geom with
    | .line a b => addEdge adj a b
    | .polyline ids closed =>
      let adj1 := (ids.zip ids.tail).foldl (fun a pr => addEdge a pr.1 pr.2) adj
      if closed then
        match ids.getLast?, ids.head? with
        | some l, some h => addEdge adj1 l h
        | _, _ => adj1
      else adj1
    | _ => adj) []

/-- The rectangle polygon pushed directly into `cycles`
(corner, corner+(w,0), corner+(w,h), corner+(0,h)). -/
def rectPoly (p : Point2D) (w h : ℚ) : List Point2D :=
  [⟨p.x, p.y⟩, ⟨p.x + w, p.y⟩, ⟨p.x + w, p.y + h⟩, ⟨p.x, p.y + h⟩]

/-- The "rectangles are always profiles" loop of `getClosedContours`.
Faithful to the source there is no corresponding push for `circle` entities:
the loop only matches rectangles. -/
def rectContours (nodes : List SketchNode) (entities : List SketchEntity) :
    List (List Point2D) :=
  entities.foldl (fun acc e =>
    match e.geom with
    | .rectangle cornerId w h =>
      match getPointIn nodes cornerId with
      | some p => acc ++ [rectPoly p w h]
      | none => acc
    | _ => acc) []

/-- `path[path.length - 2]` (defined only when the path has ≥ 2 entries). -/
def secondToLast (l : List Nat) : Option Nat := l.dropLast.getLast?

/-- Node coordinates resolved at cycle-discovery time.  The source uses a
non-null assertion (`this.nodes.get(id)!`); a missing node would throw there,
and is modelled by an arbitrary default (no claim exercises that case). -/
def nodeCoord (nodes : List SketchNode) (nid : Nat) : Point2D :=
  match findNodeIn nodes nid with
  | some n => ⟨n.x, n.y⟩
  | none => ⟨0, 0⟩

/-- Ascending sort of a path signature.  The source sorts the id strings with
the default lexicographic `Array.sort` and joins with "-"; as a
canonical-form-of-the-node-set the sorted list itself is an equivalent key
(two paths collide exactly when they have the same id set). -/
def sortNat (l : List Nat) : List Nat := l.insertionSort (· ≤ ·)

/-- A DFS stack frame `{ curr, path, visited }`. -/
structure Frame where
  curr : Nat
  path : List Nat
  visited : List Nat
deriving DecidableEq, Repr

/-- The mutable state of the cycle search: the explicit stack (head = top),
the discovered contours, and the `visitedPaths` signature set. -/
structure SearchState where
  stack : List Frame
  cycles : List (List Point2D)
  seen : List (List Nat)
deriving DecidableEq, Repr

/-- One iteration of the `for (neighbor of neighbors)` body of the cycle
search: skip immediate backtracking, record a cycle when the start node is
reached with path length ≥ 3 (deduplicated by sorted signature), otherwise
push unvisited neighbors. -/
def neighborStep (nodes : List SketchNode) (startNodeId : Nat) (fr : Frame)
    (st : SearchState) (neighbor : Nat) : SearchState :=
  if secondToLast fr.path = some neighbor then st
  else if neighbor = startNodeId ∧ 3 ≤ fr.path.length then
    let sig := sortNat fr.path
    if st.seen.contains sig then st
    else { st with
      seen := st.seen ++ [sig],
      cycles := st.cycles ++ [fr.path.map (nodeCoord nodes)] }
  else if fr.visited.contains neighbor then st
  else { st with stack :=
    ⟨neighbor, fr.path ++ [neighbor], fr.visited ++ [neighbor]⟩ :: st.stack }

/-- The whole neighbor loop of one popped frame. -/
def processNeighbors (nodes : List SketchNode) (adj : Adj) (startNodeId : Nat)
    (fr : Frame) (st0 : SearchState) : SearchState :=
  (adjGet adj fr.curr).foldl (neighborStep nodes startNodeId fr) st0

/-- The `while (stack.length > 0 && limit++ < 5000)` loop. -/
def searchLoop (nodes : List SketchNode) (adj : Adj) (startNodeId : Nat) :
    Nat → SearchState → List (List Point2D) × List (List Nat)
  | _, ⟨[], cycles, seen⟩ => (cycles, seen)
  | 0, ⟨_, cycles, seen⟩ => (cycles, seen)
  | fuel + 1, ⟨fr :: rest, cycles, seen⟩ =>
    searchLoop nodes adj startNodeId fuel
      (processNeighbors nodes adj startNodeId fr ⟨rest, cycles, seen⟩)

/-- The outer `for (startNodeId of nodeKeys)` loop: skip nodes of degree < 2,
otherwise run the bounded DFS; `cycles` and the signature set persist across
start nodes. -/
def searchAllStarts (nodes : List SketchNode) (adj : Adj) :
    List Nat → List (List Point2D) → List (List Nat) → List (List Point2D)
  | [], cycles, _ => cycles
  | k :: ks, cycles, seen =>
    if (adjGet adj k).length < 2 then searchAllStarts nodes adj ks cycles seen
    else
      let r := searchLoop nodes adj k 5000 ⟨[⟨k, [k], [k]⟩], cycles, seen⟩
      searchAllStarts nodes adj ks r.1 r.2

/-- `getClosedContours()`: adjacency from lines/polylines, rectangle polygons
pushed first, then the cycle search appends its discoveries. -/
def getClosedContours (s : Sketcher) : List (List Point2D) :=
  let adj := buildAdjacency s.entities
  searchAllStarts s.nodes adj (adj.map Prod.fst) (rectContours s.nodes s.entities) []

-- ===========================================================================
-- Editing operations (`trimEntity`, `extendEntity`)
-- ===========================================================================

/-- `getAllSegments()`: every line segment, every polyline segment (plus the
closing one), and the four derived rectangle sides. -/
def getAllSegments (s : Sketcher) : List Seg :=
  s.entities.foldl (fun segs e =>
    match e.geom with
    | .line a b =>
      match getPoint s a, getPoint s b with
      | some p1, some p2 => segs ++ [⟨p1, p2⟩]
      | _, _ => segs
    | .polyline ids closed =>
      let segs1 := (ids.zip ids.tail).foldl (fun acc pr =>
        match getPoint s pr.1, getPoint s pr.2 with
        | some p1, some p2 => acc ++ [⟨p1, p2⟩]
        | _, _ => acc) segs
      if closed then
        match ids.getLast?, ids.head? with
        | some l, some h =>
          match getPoint s l, getPoint s h with
          | some p1, some p2 => segs1 ++ [⟨p1, p2⟩]
          | _, _ => segs1
        | _, _ => segs1
      else segs1
    | .rectangle cornerId w h =>
      match getPoint s cornerId with
      | some p1 =>
        let p2 : Point2D := ⟨p1.x + w, p1.y⟩
        let p3 : Point2D := ⟨p1.x + w, p1.y + h⟩
        let p4 : Point2D := ⟨p1.x, p1.y + h⟩
        segs ++ [⟨p1, p2⟩, ⟨p2, p3⟩, ⟨p3, p4⟩, ⟨p4, p1⟩]
      | none => segs
    | _ => segs) []

/-- `getAllCircles()`. -/
def getAllCircles (s : Sketcher) : List CircleShape :=
  s.entities.foldl (fun acc e =>
    match e.geom with
    | .circle centerId r =>
      match getPoint s centerId with
      | some c => acc ++ [⟨c, r⟩]
      | none => acc
    | _ => acc) []

/-- The self-exclusion filter applied to `getAllSegments()` by `trimEntity`
and `extendEntity`: drop segments coordinate-equal to the target within
`0.001` on every component. -/
def sameSegFilter (pStart pEnd : Point2D) (segs : List Seg) : List Seg :=
  segs.filter (fun sg =>
    !(decide (|sg.p1.x - pStart.x| < 1/1000) && decide (|sg.p1.y - pStart.y| < 1/1000) &&
      decide (|sg.p2.x - pEnd.x| < 1/1000) && decide (|sg.p2.y - pEnd.y| < 1/1000)))

/-- Re-create surviving fragments as new `Line` entities, keeping only those
longer than the `0.001` minimum-length threshold
(`if (SketchMath.distance(seg.p1, seg.p2) > 0.001) this.addLine(...)`). -/
def addTrimmedSegs (sqrt : ℚ → ℚ) (s : Sketcher) (segs : List Seg) : Sketcher :=
  segs.foldl (fun st seg =>
    if 1/1000 < vecDist sqrt seg.p1 seg.p2 then addLine st seg.p1 seg.p2 else st) s

/-- The polyline branch of `trimEntity`, after the clicked segment index `i`
has been selected: delete the polyline, re-create every other segment as a
loose line, then trim the clicked segment against the refreshed surroundings. -/
def trimPolylineAt (sqrt : ℚ → ℚ) (s : Sketcher) (targetId : Nat)
    (clickPoint : Point2D) (polySegments : List Seg) (i : Nat) : Sketcher :=
  let targetSeg := (polySegments.get? i).getD ⟨⟨0, 0⟩, ⟨0, 0⟩⟩
  let s1 := removeEntity s targetId
  let s2 := (polySegments.eraseIdx i).foldl (fun st sg => addLine st sg.p1 sg.p2) s1
  match calculateTrim sqrt targetSeg clickPoint (getAllSegments s2) (getAllCircles s2) with
  | some parts => addTrimmedSegs sqrt s2 parts
  | none => s2

/-- `trimEntity(targetId, clickPoint)` of Sketcher.ts. -/
def trimEntity (sqrt : ℚ → ℚ) (s : Sketcher) (targetId : Nat) (clickPoint : Point2D) :
    Sketcher :=
  match findEntity s targetId with
  | none => s
  | some target =>
    match target.geom with
    | .line aId bId =>
      match getPoint s aId, getPoint s bId with
      | some pStart, some pEnd =>
        let allSegs := sameSegFilter pStart pEnd (getAllSegments s)
        let allCircles := getAllCircles s
        match calculateTrim sqrt ⟨pStart, pEnd⟩ clickPoint allSegs allCircles with
        | some newSegments => addTrimmedSegs sqrt (removeEntity s targetId) newSegments
        | none => s
      | _, _ => s
    | .polyline ids closed =>
      let pts := ids.filterMap (getPoint s)
      if pts.length < 2 then s
      else
        let closing : List Seg :=
          if closed then [⟨pts.getLastD ⟨0, 0⟩, pts.headD ⟨0, 0⟩⟩] else []
        let polySegments :=
          (pts.zip pts.tail).map (fun pr => Seg.mk pr.1 pr.2) ++ closing
        match closestFrag sqrt clickPoint polySegments with
        | none => s
        | some i => trimPolylineAt sqrt s targetId clickPoint polySegments i
    | _ => s

/-- `extendEntity(targetId, clickPoint)` of Sketcher.ts: lines only; on a
valid candidate the moving endpoint's NODE coordinates are mutated in place,
otherwise the state is untouched. -/
def extendEntity (sqrt : ℚ → ℚ) (s : Sketcher) (targetId : Nat) (clickPoint : Point2D) :
    Sketcher :=
  match findEntity s targetId with
  | none => s
  | some target =>
    match target.geom with
    | .line aId bId =>
      match getPoint s aId, getPoint s bId with
      | some pStart, some pEnd =>
        let allSegs := sameSegFilter pStart pEnd (getAllSegments s)
        let allCircles := getAllCircles s
        match calculateExtend sqrt ⟨pStart, pEnd⟩ clickPoint allSegs allCircles with
        | some result =>
          let dStart := vecDist sqrt clickPoint pStart
          let dEnd := vecDist sqrt clickPoint pEnd
          let nodeId := if dStart < dEnd then aId else bId
          let newNodePos := if dStart < dEnd then result.p1 else result.p2
          { s with nodes := s.nodes.map (fun n =>
              if n.id = nodeId then { n with x := newNodePos.x, y := newNodePos.y } else n) }
        | none => s
      | _, _ => s
    | _ => s

/-- Whether entity `e` references node id `nid`, following the node-reference
fields of the data model (src/lib/core/types.ts): `startNodeId`/`endNodeId`,
`nodeIds`, `cornerNodeId`, `centerNodeId` (circle AND arc),
`controlPointNodeIds`, `nodeId`. -/
def referencesNode (e : SketchEntity) (nid : Nat) : Prop :=
  match e.geom with
  | .line a b => nid = a ∨ nid = b
  | .polyline ids _ => nid ∈ ids
  | .rectangle c _ _ => nid = c
  | .circle c _ => nid = c
  | .arc c _ _ _ => nid = c
  | .spline ids _ => nid ∈ ids
  | .point n => nid = n

instance (e : SketchEntity) (nid : Nat) : Decidable (referencesNode e nid) := by
  unfold referencesNode
  match e.geom with
  | .line a b => exact inferInstance
  | .polyline ids _ => exact inferInstance
  | .rectangle c _ _ => exact inferInstance
  | .circle c _ => exact inferInstance
  | .arc c _ _ _ => exact inferInstance
  | .spline ids _ => exact inferInstance
  | .point n => exact inferInstance

end Sketcher

-- ===========================================================================
-- Concrete states used by the concrete claims
-- ===========================================================================

open Sketcher

/-- The triangle of the closed-triangle contour property: three lines added via
`addLine` so that node deduplication merges the shared endpoints. -/
def sTri : Sketcher :=
  addLine (addLine (addLine empty ⟨0, 0⟩ ⟨10, 0⟩) ⟨10, 0⟩ ⟨10, 10⟩) ⟨10, 10⟩ ⟨0, 0⟩

/-- A sketch holding a single circle entity. -/
def sCirc : Sketcher := addCircle empty ⟨0, 0⟩ 5

/-- A sketch with one point entity at the origin (its node gets id 0). -/
def sP : Sketcher := addPoint empty ⟨0, 0⟩

/-- A line `(0,0)-(10,5)` in an otherwise empty sketch (nodes 0 and 1, line
entity id 2). -/
def sV0 : Sketcher := addLine empty ⟨0, 0⟩ ⟨10, 5⟩

/-- `sV0` after `addVerticalConstraint` on the line (which itself already runs
`solveAllConstraints` before returning). -/
def sV1 : Sketcher := (addVerticalConstraint sV0 2).2

/-- `sV1` after the explicit `solveAllConstraints()` call of the claim. -/
def sV2 : Sketcher := solveAllConstraints sV1

/-- A loaded sketch whose record contains an `Arc` (center node 0) and a
`Point` (node 1): the scenario named by the dangling-reference claim. -/
def sArc : Sketcher :=
  loadFromNode empty
    [⟨0, 0, 0, false⟩, ⟨1, 5, 5, false⟩]
    [⟨10, .arc 0 2 0 1, false, []⟩, ⟨11, .point 1, false, []⟩]
    []

/-- `sArc` after removing the point entity (id 11). -/
def sArcRemoved : Sketcher := removeEntity sArc 11

/-- A loaded sketch whose only entities are three construction lines forming a
triangle. -/
def sCons : Sketcher :=
  loadFromNode empty
    [⟨0, 0, 0, false⟩, ⟨1, 10, 0, false⟩, ⟨2, 10, 10, false⟩]
    [⟨3, .line 0 1, true, []⟩, ⟨4, .line 1 2, true, []⟩, ⟨5, .line 2 0, true, []⟩]
    []

/-- A sketch holding a single line `(0,0)-(10,0)` (entity id 2), used as the
already-maximally-extended line with nothing ahead of it. -/
def sE : Sketcher := addLine empty ⟨0, 0⟩ ⟨10, 0⟩

-- ===========================================================================
-- Claim theorems (concrete)
-- ===========================================================================

/-- Claim C6: for the line `(0,0)-(10,5)`, after `addVerticalConstraint` plus
`solveAllConstraints()` both endpoint nodes have `x = 5`, the average of the
two original x values (so equal within the solver's `0.0001` epsilon), and a
further `solveAllConstraints()` call changes no node coordinate. -/
theorem claim_C6_vertical_constraint_fixed_point :
    (findNode sV2 0).map SketchNode.x = some 5 ∧
    (findNode sV2 1).map SketchNode.x = some 5 ∧
    (5 : ℚ) = (0 + 10) / 2 ∧
    (solveAllConstraints sV2).nodes = sV2.nodes := by
  decide

/-- Claim C9: the three lines `(0,0)-(10,0)`, `(10,0)-(10,10)`, `(10,10)-(0,0)`
added via `addLine` produce exactly one closed contour, whose vertex
coordinate set is `{(0,0),(10,0),(10,10)}` (cycles reached from other start
nodes or directions were deduplicated away by the canonical signature). -/
theorem claim_C9_triangle_single_contour :
    getClosedContours sTri = [[⟨0, 0⟩, ⟨10, 10⟩, ⟨10, 0⟩]] ∧
    (∀ p ∈ ([⟨0, 0⟩, ⟨10, 10⟩, ⟨10, 0⟩] : List Point2D),
        p ∈ ([⟨0, 0⟩, ⟨10, 0⟩, ⟨10, 10⟩] : List Point2D)) ∧
    (∀ p ∈ ([⟨0, 0⟩, ⟨10, 0⟩, ⟨10, 10⟩] : List Point2D),
        p ∈ ([⟨0, 0⟩, ⟨10, 10⟩, ⟨10, 0⟩] : List Point2D)) := by
  decide

/-- Claim C3 (refuting evaluation): loading a record with an Arc entity
(center node 0) and a Point entity (node 1), then removing the point, leaves
the arc in the entity map while `cleanupUnusedNodes` — which collects node ids
only for line/polyline/rectangle/circle/point and has no arc or spline branch
— deletes node 0: the arc's `centerNodeId` now dangles. -/
theorem claim_C3_arc_dangling_reference :
    findEntity sArcRemoved 10 = some ⟨10, .arc 0 2 0 1, false, []⟩ ∧
    (∃ e ∈ sArcRemoved.entities, referencesNode e 0) ∧
    findNode sArcRemoved 0 = none := by
  decide

/-- Claim C2 (counterexample): a triangle of three `construction = true` lines
still produces a closed contour — `getClosedContours` builds its adjacency
with no construction filter, so a cycle made entirely of construction
entities appears in the output. -/
theorem claim_C2_construction_cycle_appears :
    (∀ e ∈ sCons.entities, e.construction = true) ∧
    getClosedContours sCons = [[⟨0, 0⟩, ⟨10, 10⟩, ⟨10, 0⟩]] := by
  decide

/-- Claim C1 (counterexample): a sketch holding one Circle entity yields NO
contours at all — `getClosedContours` pushes synthetic polygons only for
rectangles and has no circle branch. -/
theorem claim_C1_circle_missing :
    (∃ e ∈ sCirc.entities, e.geom = .circle 0 5) ∧
    getClosedContours sCirc = [] := by
  decide

/-- Claim C5 (counterexample): with a pre-existing node at `(0,0)` (id 0),
acquiring `(0.6, 0)` creates a new node (id 2), but then acquiring
`(0.3, 0)` — whose per-axis deltas to `(0.6, 0)` are below `SNAP_DISTANCE` —
returns the OLDER node 0, because the linear scan hits it first.  The two
acquisitions do not yield the same node id. -/
theorem claim_C5_box_snap_not_transitive :
    |(3/5 : ℚ) - 3/10| < SNAP_DISTANCE ∧ |(0 : ℚ) - 0| < SNAP_DISTANCE ∧
    (acquireNode sP (3/5) 0).1 = 2 ∧
    (acquireNode (acquireNode sP (3/5) 0).2 (3/10) 0).1 = 0 := by
  decide

-- ===========================================================================
-- General lemmas about the embedding
-- ===========================================================================

/-- Accumulator-append folds factor through the empty accumulator. -/
theorem foldl_append_acc {α β : Type} (g : α → List β) :
    ∀ (l : List α) (acc : List β),
      l.foldl (fun a e => a ++ g e) acc = acc ++ l.foldl (fun a e => a ++ g e) [] := by
  intro l
  induction l with
  | nil => intro acc; simp
  | cons e l ih =>
    intro acc
    simp only [List.foldl_cons]
    rw [ih (acc ++ g e), ih ([] ++ g e)]
    simp

/-- Membership in an accumulator-append fold. -/
theorem foldl_append_mem {α β : Type} (g : α → List β) (l : List α) (acc : List β) (x : β) :
    x ∈ l.foldl (fun a e => a ++ g e) acc ↔ x ∈ acc ∨ ∃ e ∈ l, x ∈ g e := by
  induction l generalizing acc with
  | nil => simp
  | cons e l ih =>
    simp only [List.foldl_cons]
    rw [ih]
    simp [List.mem_append, or_assoc]

/-- `usedNodeIds` membership: an id was collected iff some entity contributes
it through the (arc/spline-less) if/else chain of `cleanupUnusedNodes`. -/
theorem mem_usedNodeIds (entities : List SketchEntity) (nid : Nat) :
    nid ∈ Sketcher.usedNodeIds entities ↔
      ∃ e ∈ entities, nid ∈ Sketcher.collectedNodeIds e := by
  unfold Sketcher.usedNodeIds
  rw [foldl_append_mem]
  simp

/-- Every collected node id is a node reference of its entity. -/
theorem collected_references (e : SketchEntity) (nid : Nat)
    (h : nid ∈ Sketcher.collectedNodeIds e) : Sketcher.referencesNode e nid := by
  unfold Sketcher.collectedNodeIds at h
  unfold Sketcher.referencesNode
  match hg : e.geom with
  | .line a b => rw [hg] at h; simpa using h
  | .polyline ids closed => rw [hg] at h; simpa using h
  | .rectangle c w hh => rw [hg] at h; simpa using h
  | .circle c r => rw [hg] at h; simpa using h
  | .arc c r a1 a2 => rw [hg] at h; simp at h
  | .spline ids d => rw [hg] at h; simp at h
  | .point n => rw [hg] at h; simpa using h

-- ===========================================================================
-- Claim C7: orphan cleanup after removal
-- ===========================================================================

/-- Claim C7: after `removeEntity(E)` of an existing entity, every node still
in the node map is referenced by at least one remaining entity, and every node
left unreferenced by the removal has been deleted within the same call. -/
theorem claim_C7_orphan_cleanup (s : Sketcher) (eid : Nat)
    (h : (findEntity s eid).isSome = true) :
    (∀ n ∈ (removeEntity s eid).nodes,
        ∃ e ∈ (removeEntity s eid).entities, Sketcher.referencesNode e n.id) ∧
    (∀ n ∈ s.nodes,
        (∀ e ∈ (removeEntity s eid).entities, ¬ Sketcher.referencesNode e n.id) →
        n ∉ (removeEntity s eid).nodes) := by
  obtain ⟨e, he⟩ := Option.isSome_iff_exists.mp h
  have hrm : removeEntity s eid =
      cleanupUnusedNodes
        { s with
          entities := s.entities.filter (fun e => !(e.id == eid)),
          constraints := s.constraints.filter (fun c => !(c.entityIds.contains eid)) } := by
    unfold Sketcher.removeEntity
    rw [he]
  constructor
  · intro n hn
    rw [hrm] at hn ⊢
    unfold Sketcher.cleanupUnusedNodes at hn ⊢
    simp only [List.mem_filter] at hn
    have hmem : n.id ∈ Sketcher.usedNodeIds
        (s.entities.filter (fun e => !(e.id == eid))) := by
      rw [← List.elem_iff]
      exact hn.2
    rw [mem_usedNodeIds] at hmem
    obtain ⟨e2, he2, hcol⟩ := hmem
    exact ⟨e2, he2, collected_references e2 n.id hcol⟩
  · intro n _ hall hmem
    rw [hrm] at hmem hall
    unfold Sketcher.cleanupUnusedNodes at hmem hall
    simp only [List.mem_filter] at hmem
    have hmem2 : n.id ∈ Sketcher.usedNodeIds
        (s.entities.filter (fun e => !(e.id == eid))) := by
      rw [← List.elem_iff]
      exact hmem.2
    rw [mem_usedNodeIds] at hmem2
    obtain ⟨e2, he2, hcol⟩ := hmem2
    exact hall e2 he2 (collected_references e2 n.id hcol)

/-- A state with two lines sharing node 1 (`(0,0)-(10,0)` and `(10,0)-(20,0)`),
used to witness the orphan-cleanup claim on removal of line 2. -/
def sW : Sketcher := addLine (addLine empty ⟨0, 0⟩ ⟨10, 0⟩) ⟨10, 0⟩ ⟨20, 0⟩

/-- Claim C7 witness at `sW`, removing line entity 2. -/
theorem claim_C7_orphan_cleanup_witness :
    (∀ n ∈ (removeEntity sW 2).nodes,
        ∃ e ∈ (removeEntity sW 2).entities, Sketcher.referencesNode e n.id) ∧
    (∀ n ∈ sW.nodes,
        (∀ e ∈ (removeEntity sW 2).entities, ¬ Sketcher.referencesNode e n.id) →
        n ∉ (removeEntity sW 2).nodes) :=
  claim_C7_orphan_cleanup sW 2 (by decide)

-- ===========================================================================
-- Claim C10: constraint cascade deletion on entity removal
-- ===========================================================================

/-- Claim C10: `removeEntity(id)` deletes exactly the constraints whose
`entityIds` include the removed entity: afterwards no constraint references
it, and every constraint not referencing it survives unchanged. -/
theorem claim_C10_constraint_cascade (s : Sketcher) (eid : Nat)
    (h : (findEntity s eid).isSome = true) :
    (removeEntity s eid).constraints =
      s.constraints.filter (fun c => !(c.entityIds.contains eid)) ∧
    (∀ c ∈ (removeEntity s eid).constraints, eid ∉ c.entityIds) ∧
    (∀ c ∈ s.constraints, eid ∉ c.entityIds → c ∈ (removeEntity s eid).constraints) := by
  obtain ⟨e, he⟩ := Option.isSome_iff_exists.mp h
  have hrm : (removeEntity s eid).constraints =
      s.constraints.filter (fun c => !(c.entityIds.contains eid)) := by
    unfold Sketcher.removeEntity
    rw [he]
    rfl
  refine ⟨hrm, ?_, ?_⟩
  · intro c hc hmem
    rw [hrm] at hc
    have hp := (List.mem_filter.mp hc).2
    have : c.entityIds.contains eid = true := by
      rw [← List.elem_iff] at hmem
      exact hmem
    rw [this] at hp
    simp at hp
  · intro c hc hnot
    rw [hrm]
    refine List.mem_filter.mpr ⟨hc, ?_⟩
    cases hcon : c.entityIds.contains eid with
    | true =>
      exact absurd (List.elem_iff.mp hcon) hnot
    | false => rfl

/-- A loaded state with a line (id 2), a point (id 3), a vertical constraint
on the line (id 4) and a horizontal constraint on the point (id 5). -/
def sC10 : Sketcher :=
  loadFromNode empty
    [⟨0, 0, 0, false⟩, ⟨1, 10, 0, false⟩]
    [⟨2, .line 0 1, false, []⟩, ⟨3, .point 0, false, []⟩]
    [⟨4, .vertical, [2], true⟩, ⟨5, .horizontal, [3], true⟩]

/-- Claim C10 witness at `sC10`, removing the line entity 2 (constraint 4
cascades away, constraint 5 survives). -/
theorem claim_C10_constraint_cascade_witness :
    (removeEntity sC10 2).constraints =
      sC10.constraints.filter (fun c => !(c.entityIds.contains 2)) ∧
    (∀ c ∈ (removeEntity sC10 2).constraints, 2 ∉ c.entityIds) ∧
    (∀ c ∈ sC10.constraints, 2 ∉ c.entityIds → c ∈ (removeEntity sC10 2).constraints) :=
  claim_C10_constraint_cascade sC10 2 (by decide)

-- ===========================================================================
-- Claim C5 (amended): box snapping from a locally fresh region
-- ===========================================================================

/-- `find?` skips a prefix on which it returns `none`. -/
theorem find?_append_none {α : Type} (p : α → Bool) (l1 l2 : List α)
    (h : l1.find? p = none) : (l1 ++ l2).find? p = l2.find? p := by
  induction l1 with
  | nil => rfl
  | cons a l ih =>
    cases hpa : p a with
    | true =>
      rw [List.find?_cons_of_pos _ hpa] at h
      cases h
    | false =>
      rw [List.find?_cons_of_neg _ (by simp [hpa])] at h
      rw [List.cons_append, List.find?_cons_of_neg _ (by simp [hpa])]
      exact ih h

/-- Claim C5 (amended): when no pre-existing node box-matches either
coordinate pair, acquiring the first pair and then a second pair whose
per-axis deltas are below `SNAP_DISTANCE` yields the same node id, and the
second acquisition leaves the state unchanged (creates no node). -/
theorem claim_C5_amended_fresh_region (s : Sketcher) (x1 y1 x2 y2 : ℚ)
    (hx : |x1 - x2| < SNAP_DISTANCE) (hy : |y1 - y2| < SNAP_DISTANCE)
    (h1 : ∀ n ∈ s.nodes, boxMatch n x1 y1 = false)
    (h2 : ∀ n ∈ s.nodes, boxMatch n x2 y2 = false) :
    (acquireNode (acquireNode s x1 y1).2 x2 y2).1 = (acquireNode s x1 y1).1 ∧
    (acquireNode (acquireNode s x1 y1).2 x2 y2).2 = (acquireNode s x1 y1).2 := by
  have hf1 : s.nodes.find? (fun n => boxMatch n x1 y1) = none := by
    rw [List.find?_eq_none]
    intro n hn
    simp [h1 n hn]
  have e1 : acquireNode s x1 y1 =
      (s.nextId, { s with nodes := s.nodes ++ [⟨s.nextId, x1, y1, false⟩],
                          nextId := s.nextId + 1 }) := by
    unfold Sketcher.acquireNode
    rw [hf1]
    rfl
  have hbm : boxMatch (SketchNode.mk s.nextId x1 y1 false) x2 y2 = true := by
    simp [Sketcher.boxMatch, hx, hy]
  have hf2 : (s.nodes ++ [SketchNode.mk s.nextId x1 y1 false]).find?
        (fun n => boxMatch n x2 y2) =
      some (SketchNode.mk s.nextId x1 y1 false) := by
    rw [find?_append_none _ _ _ (by rw [List.find?_eq_none]; intro n hn; simp [h2 n hn])]
    exact List.find?_cons_of_pos _ hbm
  rw [e1]
  constructor
  · show (acquireNode _ x2 y2).1 = s.nextId
    unfold Sketcher.acquireNode
    rw [hf2]
  · show (acquireNode _ x2 y2).2 = _
    unfold Sketcher.acquireNode
    rw [hf2]

/-- Claim C5 (amended) witness: the empty sketch, pairs `(0,0)` and
`(0.3, 0.2)`. -/
theorem claim_C5_amended_fresh_region_witness :
    (acquireNode (acquireNode empty 0 0).2 (3/10) (1/5)).1 = (acquireNode empty 0 0).1 ∧
    (acquireNode (acquireNode empty 0 0).2 (3/10) (1/5)).2 = (acquireNode empty 0 0).2 :=
  claim_C5_amended_fresh_region empty 0 0 (3/10) (1/5)
    (by decide) (by decide) (by decide) (by decide)

-- ===========================================================================
-- Claim C8: extend with no candidate is a strict no-op
-- ===========================================================================

/-- Claim C8: if `extendEntity` is called on a line target whose
`calculateExtend` finds no valid intersection candidate ahead of the moving
endpoint, the state is returned unchanged: no node coordinate, no entity and
no constraint is mutated. -/
theorem claim_C8_extend_noop (sqrt : ℚ → ℚ) (s : Sketcher) (targetId : Nat)
    (clickPoint : Point2D) (e : SketchEntity) (aId bId : Nat) (pStart pEnd : Point2D)
    (he : findEntity s targetId = some e) (hg : e.geom = .line aId bId)
    (hpa : getPoint s aId = some pStart) (hpb : getPoint s bId = some pEnd)
    (hnone : calculateExtend sqrt ⟨pStart, pEnd⟩ clickPoint
        (sameSegFilter pStart pEnd (getAllSegments s)) (getAllCircles s) = none) :
    extendEntity sqrt s targetId clickPoint = s := by
  obtain ⟨eid, geom, constr, conns⟩ := e
  simp only at hg
  subst hg
  unfold Sketcher.extendEntity
  rw [he]
  simp only
  rw [hpa, hpb]
  simp only
  rw [hnone]

/-- Claim C8 witness: a single line `(0,0)-(10,0)` with nothing else in the
sketch; extending from a click at `(20,0)` finds no candidate and leaves the
state untouched (`sqrt` instantiated with the identity). -/
theorem claim_C8_extend_noop_witness :
    extendEntity (fun q => q) sE 2 ⟨20, 0⟩ = sE :=
  claim_C8_extend_noop (fun q => q) sE 2 ⟨20, 0⟩ ⟨2, .line 0 1, false, []⟩ 0 1
    ⟨0, 0⟩ ⟨10, 0⟩ (by decide) rfl (by decide) (by decide) (by decide)

-- ===========================================================================
-- Claim C2 (amended): the construction flag is irrelevant to contours
-- ===========================================================================

/-- Reassign every entity's `construction` flag by an arbitrary rule. -/
def setConstructionBy (f : SketchEntity → Bool) (s : Sketcher) : Sketcher :=
  { s with entities := s.entities.map (fun e => { e with construction := f e }) }

/-- Claim C2 (amended): `getClosedContours` treats construction geometry
exactly like regular geometry — both the adjacency it builds and its whole
output are invariant under arbitrary reassignment of the `construction`
flags (the counterexample shows a cycle of construction lines appearing). -/
theorem claim_C2_amended_construction_irrelevant (s : Sketcher) (f : SketchEntity → Bool) :
    Sketcher.buildAdjacency (setConstructionBy f s).entities =
      Sketcher.buildAdjacency s.entities ∧
    getClosedContours (setConstructionBy f s) = getClosedContours s := by
  have hadj : Sketcher.buildAdjacency (setConstructionBy f s).entities =
      Sketcher.buildAdjacency s.entities := by
    unfold Sketcher.buildAdjacency setConstructionBy
    rw [List.foldl_map]
  have hrect : Sketcher.rectContours (setConstructionBy f s).nodes
      (setConstructionBy f s).entities = Sketcher.rectContours s.nodes s.entities := by
    unfold Sketcher.rectContours setConstructionBy
    rw [List.foldl_map]
  refine ⟨hadj, ?_⟩
  unfold Sketcher.getClosedContours
  rw [hadj, hrect]
  rfl

-- ===========================================================================
-- Claim C1 (amended): rectangles appear directly; circles contribute nothing
-- ===========================================================================

/-- What one entity contributes to the direct rectangle loop. -/
def rectContrib (nodes : List SketchNode) (e : SketchEntity) : List (List Point2D) :=
  match e.geom with
  | .rectangle c w h =>
    match getPointIn nodes c with
    | some p => [Sketcher.rectPoly p w h]
    | none => []
  | _ => []

/-- `rectContours` as an accumulator-append fold of `rectContrib`. -/
theorem rectContours_eq (nodes : List SketchNode) (entities : List SketchEntity) :
    Sketcher.rectContours nodes entities =
      entities.foldl (fun acc e => acc ++ rectContrib nodes e) [] := by
  unfold Sketcher.rectContours
  congr 1
  funext acc e
  obtain ⟨eid, geom, constr, conns⟩ := e
  cases geom with
  | rectangle c w h =>
    cases hp : getPointIn nodes c <;> simp [rectContrib, hp]
  | line a b => simp [rectContrib]
  | polyline ids cl => simp [rectContrib]
  | circle c r => simp [rectContrib]
  | arc c r a1 a2 => simp [rectContrib]
  | spline ids d => simp [rectContrib]
  | point n => simp [rectContrib]

/-- `neighborStep` only ever appends to the discovered cycle list. -/
theorem neighborStep_cycles_append (nodes : List SketchNode) (startId : Nat) (fr : Frame)
    (st : SearchState) (nb : Nat) :
    ∃ l, (neighborStep nodes startId fr st nb).cycles = st.cycles ++ l := by
  unfold neighborStep
  dsimp only
  split_ifs
  · exact ⟨[], by simp⟩
  · exact ⟨[], by simp⟩
  · exact ⟨[fr.path.map (nodeCoord nodes)], by simp⟩
  · exact ⟨[], by simp⟩
  · exact ⟨[], by simp⟩

/-- The neighbor fold only ever appends to the discovered cycle list. -/
theorem foldl_neighborStep_cycles (nodes : List SketchNode) (startId : Nat) (fr : Frame) :
    ∀ (ns : List Nat) (st : SearchState),
      ∃ l, (ns.foldl (neighborStep nodes startId fr) st).cycles = st.cycles ++ l := by
  intro ns
  induction ns with
  | nil => intro st; exact ⟨[], by simp⟩
  | cons nb ns ih =>
    intro st
    simp only [List.foldl_cons]
    obtain ⟨l2, hl2⟩ := ih (neighborStep nodes startId fr st nb)
    obtain ⟨l1, hl1⟩ := neighborStep_cycles_append nodes startId fr st nb
    exact ⟨l1 ++ l2, by rw [hl2, hl1, List.append_assoc]⟩

/-- The bounded DFS loop only ever appends to the discovered cycle list. -/
theorem searchLoop_cycles_append (nodes : List SketchNode) (adj : Adj) (startId : Nat) :
    ∀ (fuel : Nat) (st : SearchState),
      ∃ l, (searchLoop nodes adj startId fuel st).1 = st.cycles ++ l := by
  intro fuel
  induction fuel with
  | zero =>
    intro st
    obtain ⟨stack, cycles, seen⟩ := st
    cases stack with
    | nil => exact ⟨[], by simp [Sketcher.searchLoop]⟩
    | cons fr rest => exact ⟨[], by simp [Sketcher.searchLoop]⟩
  | succ k ih =>
    intro st
    obtain ⟨stack, cycles, seen⟩ := st
    cases stack with
    | nil => exact ⟨[], by simp [Sketcher.searchLoop]⟩
    | cons fr rest =>
      have hstep : searchLoop nodes adj startId (k + 1) ⟨fr :: rest, cycles, seen⟩ =
          searchLoop nodes adj startId k
            (processNeighbors nodes adj startId fr ⟨rest, cycles, seen⟩) := rfl
      rw [hstep]
      obtain ⟨l2, hl2⟩ := ih (processNeighbors nodes adj startId fr ⟨rest, cycles, seen⟩)
      obtain ⟨l1, hl1⟩ :=
        foldl_neighborStep_cycles nodes startId fr (adjGet adj fr.curr) ⟨rest, cycles, seen⟩
      refine ⟨l1 ++ l2, ?_⟩
      rw [hl2]
      unfold Sketcher.processNeighbors
      rw [hl1, List.append_assoc]

/-- The per-start-node loop only ever appends to the cycle list it was
seeded with. -/
theorem searchAllStarts_cycles_append (nodes : List SketchNode) (adj : Adj) :
    ∀ (ks : List Nat) (cycles : List (List Point2D)) (seen : List (List Nat)),
      ∃ l, searchAllStarts nodes adj ks cycles seen = cycles ++ l := by
  intro ks
  induction ks with
  | nil => intro cycles seen; exact ⟨[], by simp [Sketcher.searchAllStarts]⟩
  | cons k ks ih =>
    intro cycles seen
    unfold Sketcher.searchAllStarts
    split_ifs with hdeg
    · exact ih cycles seen
    · obtain ⟨l1, hl1⟩ := searchLoop_cycles_append nodes adj k 5000 ⟨[⟨k, [k], [k]⟩], cycles, seen⟩
      obtain ⟨l2, hl2⟩ := ih
        (searchLoop nodes adj k 5000 ⟨[⟨k, [k], [k]⟩], cycles, seen⟩).1
        (searchLoop nodes adj k 5000 ⟨[⟨k, [k], [k]⟩], cycles, seen⟩).2
      exact ⟨l1 ++ l2, by rw [hl2, hl1, List.append_assoc]⟩

/-- True exactly on circle entities. -/
def isCircleEnt (e : SketchEntity) : Bool :=
  match e.geom with
  | .circle _ _ => true
  | _ => false

/-- Delete every circle entity. -/
def dropCircles (s : Sketcher) : Sketcher :=
  { s with entities := s.entities.filter (fun e => !(isCircleEnt e)) }

/-- Filtering away elements on which a fold step is the identity does not
change the fold. -/
theorem foldl_filter_skip {α β : Type} (step : β → α → β) (p : α → Bool)
    (hskip : ∀ (acc : β) (x : α), p x = false → step acc x = acc) :
    ∀ (l : List α) (acc : β), (l.filter p).foldl step acc = l.foldl step acc := by
  intro l
  induction l with
  | nil => intro acc; rfl
  | cons x l ih =>
    intro acc
    cases hp : p x with
    | true => rw [List.filter_cons_of_pos hp]; simp only [List.foldl_cons]; exact ih _
    | false =>
      rw [List.filter_cons_of_neg (by simp [hp])]
      simp only [List.foldl_cons]
      rw [hskip acc x hp]
      exact ih acc

/-- Claim C1 (amended): in EVERY sketch state, (a) every rectangle entity
whose corner resolves appears in `getClosedContours` as the polygon derived
directly from its corner and scalar width/height (pushed before any graph
search), and (b) circle entities contribute nothing: deleting all circles
leaves the output unchanged, unconditionally. -/
theorem claim_C1_amended_rect_direct_circle_absent (s : Sketcher) :
    (∀ e ∈ s.entities, ∀ (c : Nat) (w h : ℚ) (p : Point2D),
      e.geom = .rectangle c w h → getPointIn s.nodes c = some p →
      Sketcher.rectPoly p w h ∈ getClosedContours s) ∧
    getClosedContours (dropCircles s) = getClosedContours s := by
  constructor
  · intro e he c w h p hg hp
    have hmem : Sketcher.rectPoly p w h ∈ Sketcher.rectContours s.nodes s.entities := by
      rw [rectContours_eq, foldl_append_mem]
      exact Or.inr ⟨e, he, by simp [rectContrib, hg, hp]⟩
    unfold Sketcher.getClosedContours
    obtain ⟨l, hl⟩ := searchAllStarts_cycles_append s.nodes (Sketcher.buildAdjacency s.entities)
      ((Sketcher.buildAdjacency s.entities).map Prod.fst)
      (Sketcher.rectContours s.nodes s.entities) []
    rw [hl]
    exact List.mem_append_left _ hmem
  · have hadj : Sketcher.buildAdjacency (dropCircles s).entities =
        Sketcher.buildAdjacency s.entities := by
      unfold Sketcher.buildAdjacency dropCircles
      refine foldl_filter_skip _ _ ?_ s.entities []
      intro acc x hx
      obtain ⟨eid, geom, constr, conns⟩ := x
      cases geom <;> simp_all [isCircleEnt]
    have hrect : Sketcher.rectContours (dropCircles s).nodes (dropCircles s).entities =
        Sketcher.rectContours s.nodes s.entities := by
      unfold Sketcher.rectContours dropCircles
      refine foldl_filter_skip _ _ ?_ s.entities []
      intro acc x hx
      obtain ⟨eid, geom, constr, conns⟩ := x
      cases geom <;> simp_all [isCircleEnt]
    unfold Sketcher.getClosedContours
    rw [hadj, hrect]
    rfl

/-- A sketch holding one rectangle (corner `(1,2)`, width 3, height 4, entity
id 1) AND one circle (center `(0,0)`, radius 5, entity id 3), so that both
halves of the amended claim are exercised non-degenerately: the rectangle
appears directly, and deleting the circle really removes an entity. -/
def sRectCirc : Sketcher := addCircle (addRectangle empty ⟨1, 2⟩ 3 4) ⟨0, 0⟩ 5

/-- Claim C1 (amended) witness at `sRectCirc`: the rectangle polygon is among
the contours, and dropping the circle entity leaves the output unchanged. -/
theorem claim_C1_amended_rect_direct_circle_absent_witness :
    Sketcher.rectPoly ⟨1, 2⟩ 3 4 ∈ getClosedContours sRectCirc ∧
    getClosedContours (dropCircles sRectCirc) = getClosedContours sRectCirc :=
  ⟨(claim_C1_amended_rect_direct_circle_absent sRectCirc).1
      ⟨1, .rectangle 0 3 4, false, []⟩ (by decide) 0 3 4 ⟨1, 2⟩ rfl (by decide),
    (claim_C1_amended_rect_direct_circle_absent sRectCirc).2⟩

-- ===========================================================================
-- Claim C4: trim partition
-- ===========================================================================

/-- `EPSILON` is positive. -/
theorem epsilon_pos : (0 : ℚ) < EPSILON := by norm_num [EPSILON]

/-- Sorting the seeded cut array `[0, 1] ++ cuts` when the cuts sort to
`[t1, t2]` with `0 ≤ t1 ≤ t2 ≤ 1`. -/
theorem sortQ_seeded (cuts : List ℚ) (t1 t2 : ℚ) (hsort : sortQ cuts = [t1, t2])
    (h0 : 0 ≤ t1) (h12 : t1 ≤ t2) (h2 : t2 ≤ 1) :
    sortQ ([0, 1] ++ cuts) = [0, t1, t2, 1] := by
  have hperm : List.Perm cuts [t1, t2] := by
    have hp := List.perm_insertionSort (fun a b : ℚ => a ≤ b) cuts
    rw [show List.insertionSort (fun a b : ℚ => a ≤ b) cuts = sortQ cuts from rfl, hsort] at hp
    exact hp.symm
  have p1 : List.Perm (sortQ ([0, 1] ++ cuts)) ([0, 1] ++ cuts) :=
    List.perm_insertionSort _ _
  have p2 : List.Perm ([0, 1] ++ cuts) ([0, 1] ++ [t1, t2]) :=
    List.Perm.append_left [0, 1] hperm
  have p3 : List.Perm ([(0 : ℚ), 1] ++ [t1, t2]) [0, t1, t2, 1] :=
    List.Perm.cons 0 (@List.perm_append_comm ℚ [1] [t1, t2])
  have hs1 : List.Sorted (fun a b : ℚ => a ≤ b) (sortQ ([0, 1] ++ cuts)) :=
    List.sorted_insertionSort _ _
  have hs2 : List.Sorted (fun a b : ℚ => a ≤ b) [0, t1, t2, 1] := by
    simp only [List.sorted_cons, List.mem_cons, List.not_mem_nil, List.mem_singleton,
      or_false, List.sorted_singleton, List.sorted_nil, and_true]
    refine ⟨?_, ?_, ?_⟩
    · rintro b (rfl | rfl | rfl) <;> linarith
    · rintro b (rfl | rfl) <;> linarith
    · exact ⟨fun b hb => by subst hb; linarith, fun b hb => absurd hb not_false⟩
  exact List.eq_of_perm_of_sorted ((p1.trans p2).trans p3) hs1 hs2

/-- Pairwise-separated cut arrays pass the dedup filter unchanged. -/
theorem dedupCuts_separated (t1 t2 : ℚ) (h1 : EPSILON < t1) (h12 : t1 + EPSILON < t2)
    (h2 : t2 < 1 - EPSILON) :
    dedupCuts [0, t1, t2, 1] = [0, t1, t2, 1] := by
  simp only [dedupCuts, dedupAux]
  rw [if_pos (show (0 : ℚ) + EPSILON < t1 by linarith),
      if_pos (show t1 + EPSILON < t2 by linarith),
      if_pos (show t2 + EPSILON < 1 by linarith)]

/-- The argmin scan on a three-element fragment list: it returns the first
index of minimal `fragDist`, and that fragment's distance is a lower bound
for all three. -/
theorem closestFrag_three (sqrt : ℚ → ℚ) (clickPoint : Point2D) (f0 f1 f2 : Seg) :
    ∃ i fi, i < 3 ∧
      closestFrag sqrt clickPoint [f0, f1, f2] = some i ∧
      ([f0, f1, f2].get? i) = some fi ∧
      fragDist sqrt clickPoint fi ≤ fragDist sqrt clickPoint f0 ∧
      fragDist sqrt clickPoint fi ≤ fragDist sqrt clickPoint f1 ∧
      fragDist sqrt clickPoint fi ≤ fragDist sqrt clickPoint f2 := by
  by_cases hA : fragDist sqrt clickPoint f1 < fragDist sqrt clickPoint f0
  · by_cases hB : fragDist sqrt clickPoint f2 < fragDist sqrt clickPoint f1
    · exact ⟨2, f2, by norm_num, by simp [closestFrag, hA, hB], rfl,
        le_of_lt (lt_trans hB hA), le_of_lt hB, le_refl _⟩
    · exact ⟨1, f1, by norm_num, by simp [closestFrag, hA, hB], rfl,
        le_of_lt hA, le_refl _, le_of_not_lt hB⟩
  · by_cases hB : fragDist sqrt clickPoint f2 < fragDist sqrt clickPoint f0
    · exact ⟨2, f2, by norm_num, by simp [closestFrag, hA, hB], rfl,
        le_of_lt hB, le_trans (le_of_lt hB) (le_of_not_lt hA), le_refl _⟩
    · exact ⟨0, f0, by norm_num, by simp [closestFrag, hA, hB], rfl,
        le_refl _, le_of_not_lt hA, le_of_not_lt hB⟩

/-- When every fragment passes the minimum-length test, `addTrimmedSegs`
re-creates all of them via `addLine`. -/
theorem addTrimmedSegs_all_long (sqrt : ℚ → ℚ) (segs : List Seg)
    (h : ∀ sg ∈ segs, 1/1000 < vecDist sqrt sg.p1 sg.p2) :
    ∀ s0 : Sketcher, addTrimmedSegs sqrt s0 segs =
      segs.foldl (fun st sg => addLine st sg.p1 sg.p2) s0 := by
  induction segs with
  | nil => intro s0; rfl
  | cons sg segs ih =>
    intro s0
    unfold Sketcher.addTrimmedSegs
    simp only [List.foldl_cons]
    rw [if_pos (h sg (by simp))]
    exact ih (fun x hx => h x (by simp [hx])) (addLine s0 sg.p1 sg.p2)

/-- Reduction of `trimEntity` on a resolvable line target to the
`calculateTrim` dispatch. -/
theorem trimEntity_line_unfold (sqrt : ℚ → ℚ) (s : Sketcher) (targetId : Nat)
    (clickPoint : Point2D) (e : SketchEntity) (aId bId : Nat) (pStart pEnd : Point2D)
    (he : findEntity s targetId = some e) (hg : e.geom = .line aId bId)
    (hpa : getPoint s aId = some pStart) (hpb : getPoint s bId = some pEnd) :
    trimEntity sqrt s targetId clickPoint =
      match calculateTrim sqrt ⟨pStart, pEnd⟩ clickPoint
          (sameSegFilter pStart pEnd (getAllSegments s)) (getAllCircles s) with
      | some newSegments => addTrimmedSegs sqrt (removeEntity s targetId) newSegments
      | none => s := by
  obtain ⟨eid, geom, constr, conns⟩ := e
  simp only at hg
  subst hg
  unfold Sketcher.trimEntity
  rw [he]
  simp only
  rw [hpa, hpb]

/-- Claim C4: on a line target, (a) when the collected interior intersection
parameters are exactly two well-separated values `t1 < t2` (and each of the
three induced fragments exceeds the minimum length threshold), `trimEntity`
deletes the target and re-creates via `addLine` exactly the two fragments
other than the one of minimal clamped projection distance to the click point,
the three fragments being the parameter ranges `[0,t1]`, `[t1,t2]`, `[t2,1]`
partitioning `[0,1]`; and (b) when no interior intersections were collected
at all, the target is deleted and nothing is re-created. -/
theorem claim_C4_trim_partition (sqrt : ℚ → ℚ) (s : Sketcher) (targetId : Nat)
    (clickPoint : Point2D) (e : SketchEntity) (aId bId : Nat) (pStart pEnd : Point2D)
    (he : findEntity s targetId = some e) (hg : e.geom = .line aId bId)
    (hpa : getPoint s aId = some pStart) (hpb : getPoint s bId = some pEnd) :
    (∀ t1 t2 : ℚ,
      sortQ (trimCuts sqrt pStart pEnd (sameSegFilter pStart pEnd (getAllSegments s))
        (getAllCircles s)) = [t1, t2] →
      EPSILON < t1 → t1 + EPSILON < t2 → t2 < 1 - EPSILON →
      (∀ sg ∈ fragsOf pStart pEnd [0, t1, t2, 1],
        1/1000 < vecDist sqrt sg.p1 sg.p2) →
      ∃ i fi, i < 3 ∧
        closestFrag sqrt clickPoint (fragsOf pStart pEnd [0, t1, t2, 1]) = some i ∧
        (fragsOf pStart pEnd [0, t1, t2, 1]).get? i = some fi ∧
        (∀ sg ∈ fragsOf pStart pEnd [0, t1, t2, 1],
          fragDist sqrt clickPoint fi ≤ fragDist sqrt clickPoint sg) ∧
        dedupCuts (sortQ ([0, 1] ++ trimCuts sqrt pStart pEnd
          (sameSegFilter pStart pEnd (getAllSegments s)) (getAllCircles s))) =
          [0, t1, t2, 1] ∧
        trimEntity sqrt s targetId clickPoint =
          ((fragsOf pStart pEnd [0, t1, t2, 1]).eraseIdx i).foldl
            (fun st sg => addLine st sg.p1 sg.p2) (removeEntity s targetId)) ∧
    (trimCuts sqrt pStart pEnd (sameSegFilter pStart pEnd (getAllSegments s))
        (getAllCircles s) = [] →
      trimEntity sqrt s targetId clickPoint = removeEntity s targetId) := by
  have hwrap := trimEntity_line_unfold sqrt s targetId clickPoint e aId bId pStart pEnd
    he hg hpa hpb
  constructor
  · intro t1 t2 hsort h1 h12 h2 hlong
    have heps := epsilon_pos
    have hseed : sortQ ([0, 1] ++ trimCuts sqrt pStart pEnd
        (sameSegFilter pStart pEnd (getAllSegments s)) (getAllCircles s)) =
        [0, t1, t2, 1] :=
      sortQ_seeded _ t1 t2 hsort (by linarith) (by linarith) (by linarith)
    have hdedup := dedupCuts_separated t1 t2 h1 h12 h2
    have hfrags : fragsOf pStart pEnd [0, t1, t2, 1] =
        [⟨pointAt pStart pEnd 0, pointAt pStart pEnd t1⟩,
         ⟨pointAt pStart pEnd t1, pointAt pStart pEnd t2⟩,
         ⟨pointAt pStart pEnd t2, pointAt pStart pEnd 1⟩] := rfl
    obtain ⟨i, fi, hilt, hclosest, hget, hm0, hm1, hm2⟩ :=
      closestFrag_three sqrt clickPoint
        ⟨pointAt pStart pEnd 0, pointAt pStart pEnd t1⟩
        ⟨pointAt pStart pEnd t1, pointAt pStart pEnd t2⟩
        ⟨pointAt pStart pEnd t2, pointAt pStart pEnd 1⟩
    refine ⟨i, fi, hilt, by rw [hfrags]; exact hclosest, by rw [hfrags]; exact hget,
      ?_, hseed ▸ hdedup, ?_⟩
    · intro sg hsg
      rw [hfrags] at hsg
      simp only [List.mem_cons, List.not_mem_nil, or_false] at hsg
      rcases hsg with h | h | h <;> subst h <;> assumption
    · have hcalc : calculateTrim sqrt ⟨pStart, pEnd⟩ clickPoint
          (sameSegFilter pStart pEnd (getAllSegments s)) (getAllCircles s) =
          some ((fragsOf pStart pEnd [0, t1, t2, 1]).eraseIdx i) := by
        unfold calculateTrim
        simp only
        rw [hseed, hdedup, hfrags, hclosest]
      rw [hwrap, hcalc]
      simp only
      exact addTrimmedSegs_all_long sqrt _
        (fun sg hsg => hlong sg (List.eraseIdx_subset _ _ hsg)) (removeEntity s targetId)
  · intro hcuts
    have hcalc : calculateTrim sqrt ⟨pStart, pEnd⟩ clickPoint
        (sameSegFilter pStart pEnd (getAllSegments s)) (getAllCircles s) = some [] := by
      unfold calculateTrim
      simp only
      rw [hcuts]
      norm_num [sortQ, List.insertionSort, List.orderedInsert, dedupCuts, dedupAux,
        EPSILON, fragsOf, closestFrag, pointAt]
    rw [hwrap, hcalc]
    rfl

/-- Trim witness state: target line `(0,0)-(10,0)` (entity id 2) crossed by
the two vertical lines `x = 3` and `x = 7`, giving interior cut parameters
`0.3` and `0.7`. -/
def sT : Sketcher :=
  addLine (addLine (addLine empty ⟨0, 0⟩ ⟨10, 0⟩) ⟨3, -5⟩ ⟨3, 5⟩) ⟨7, -5⟩ ⟨7, 5⟩

/-- Claim C4 witness: trimming line 2 of `sT` at click `(5, 0.1)` (with `sqrt`
instantiated by the identity) — the two-interior-cuts branch of the claim at
`t1 = 0.3`, `t2 = 0.7`. -/
theorem claim_C4_trim_partition_witness :
    ∃ i fi, i < 3 ∧
      closestFrag (fun q => q) ⟨5, 1/10⟩
        (fragsOf ⟨0, 0⟩ ⟨10, 0⟩ [0, 3/10, 7/10, 1]) = some i ∧
      (fragsOf ⟨0, 0⟩ ⟨10, 0⟩ [0, 3/10, 7/10, 1]).get? i = some fi ∧
      (∀ sg ∈ fragsOf ⟨0, 0⟩ ⟨10, 0⟩ [0, 3/10, 7/10, 1],
        fragDist (fun q => q) ⟨5, 1/10⟩ fi ≤ fragDist (fun q => q) ⟨5, 1/10⟩ sg) ∧
      dedupCuts (sortQ ([0, 1] ++ trimCuts (fun q => q) ⟨0, 0⟩ ⟨10, 0⟩
        (sameSegFilter ⟨0, 0⟩ ⟨10, 0⟩ (getAllSegments sT)) (getAllCircles sT))) =
        [0, 3/10, 7/10, 1] ∧
      trimEntity (fun q => q) sT 2 ⟨5, 1/10⟩ =
        ((fragsOf ⟨0, 0⟩ ⟨10, 0⟩ [0, 3/10, 7/10, 1]).eraseIdx i).foldl
          (fun st sg => addLine st sg.p1 sg.p2) (removeEntity sT 2) :=
  (claim_C4_trim_partition (fun q => q) sT 2 ⟨5, 1/10⟩ ⟨2, .line 0 1, false, []⟩ 0 1
      ⟨0, 0⟩ ⟨10, 0⟩ (by decide) rfl (by decide) (by decide)).1
    (3/10) (7/10) (by decide) (by decide) (by decide) (by decide) (by decide)

end Bobbo
